import Mathlib

/-!
# PIN gate of `appt.js`

A shallow embedding of the PIN-entry state machine of `src/appt.js`
(`handleKeyPress`, `handleKeyboard`, `addDigit`, `deleteLastDigit`, `clearPin`,
`updatePinDisplay`, `verifyPin`, `showError`, `clearError`, `shakeAnimation`,
`showDashboard`, `logout`, the `DOMContentLoaded` start-up check) together with
the properties the specification states about it.

Modelling decisions.

* A JavaScript string is the list of its UTF-16 code units, so that `.length`,
  `+=`, `.slice(0, -1)`, `===` and the relational operators `>=`, `<=` are the
  list operations of the same meaning.
* The module-level variable `currentPin`, the DOM properties the script reads
  or writes, the session-storage entry `authenticated` and the pending timers
  are the fields of `State`; each function of the script is a function
  `State → State`.
* `setTimeout(f, d)` appends a pending timer; a pending timer fires through
  `fireTimer`.  The event loop is single threaded, so every handler and every
  callback runs to completion.
* The page (HTML and CSS) is not part of the sources: the number of `.pin-dot`
  elements is the length of `State.pinDots`, and the elements the script looks
  up by id or selector are taken to exist.
-/

namespace Appt

/-! ## JavaScript strings -/

/-- A JavaScript string: the sequence of its UTF-16 code units. -/
abbrev JSString := List Nat

/-- The JavaScript string of a literal whose characters all lie in the Basic
Multilingual Plane (one code unit per character). -/
def js (s : String) : JSString := s.toList.map Char.toNat

/-- The relation `a < b` of JavaScript on strings: `false` when `b` is a prefix
of `a`, `true` when `a` is a proper prefix of `b`, otherwise decided by the
first code unit at which they differ. -/
def jsLt : JSString → JSString → Bool
  | _, [] => false
  | [], _ :: _ => true
  | a :: as, b :: bs => if a < b then true else if b < a then false else jsLt as bs

/-- The relation `a >= b` of JavaScript on strings, which is `!(a < b)`. -/
def jsGe (a b : JSString) : Bool := !jsLt a b

/-- The relation `a <= b` of JavaScript on strings, which is `!(b < a)`. -/
def jsLe (a b : JSString) : Bool := !jsLt b a

/-- The string a value contributes to `currentPin += value`: a string itself,
and `"null"` for `null` (what `getAttribute` returns for a missing attribute). -/
def toJSString : Option JSString → JSString
  | some s => s
  | none => js "null"

/-! ## State -/

/-- The callbacks the script hands to `setTimeout` and `setInterval`. -/
inductive Callback where
  /-- `setTimeout(verifyPin, 300)` in `addDigit`. -/
  | verifyPin
  /-- `setTimeout(() => { showDashboard(); }, 500)` in `verifyPin`. -/
  | showDashboard
  /-- `setTimeout(() => { pinDisplay.style.animation = ''; }, 500)` in `shakeAnimation`. -/
  | clearShake
  /-- The interval callback of `animateBalance`, with the value of its counter `step`. -/
  | balanceStep (step : Nat)
  deriving DecidableEq

/-- A pending timer: its delay in milliseconds and its callback. -/
structure Timer where
  delay : Nat
  callback : Callback
  deriving DecidableEq

/-- One `.pin-dot` element: whether its class list holds `filled`, and the two
inline style properties `verifyPin` writes. -/
structure PinDot where
  filled : Bool
  background : String
  borderColor : String
  deriving DecidableEq

/-- Everything the PIN gate reads or writes. -/
structure State where
  /-- The module variable `currentPin`. -/
  currentPin : JSString
  /-- Whether `pinScreen.classList` contains `hidden`. -/
  pinScreenHidden : Bool
  /-- Whether `dashboard.classList` contains `hidden`. -/
  dashboardHidden : Bool
  /-- The property `errorMessage.textContent`. -/
  errorText : String
  /-- The property `errorMessage.style.display`. -/
  errorDisplay : String
  /-- The node list `pinDots`, in document order. -/
  pinDots : List PinDot
  /-- The property `style.animation` of the `.pin-display` element. -/
  animation : String
  /-- The result of `sessionStorage.getItem('authenticated')`; `none` is `null`. -/
  authenticated : Option String
  /-- The pending timers, oldest first. -/
  timers : List Timer
  deriving DecidableEq

/-- The constant `CORRECT_PIN`. -/
def CORRECT_PIN : JSString := js "534271"

/-- Dashboard is the visible view: the PIN screen is hidden and the dashboard is not. -/
def DashboardVisible (s : State) : Prop :=
  s.pinScreenHidden = true ∧ s.dashboardHidden = false

/-- The PIN screen is the visible view: the dashboard is hidden and the PIN screen is not. -/
def PinScreenVisible (s : State) : Prop :=
  s.pinScreenHidden = false ∧ s.dashboardHidden = true

instance (s : State) : Decidable (DashboardVisible s) := by
  unfold DashboardVisible; infer_instance

instance (s : State) : Decidable (PinScreenVisible s) := by
  unfold PinScreenVisible; infer_instance

/-! ## The functions of the script -/

/-- The call `setTimeout(callback, delay)`. -/
def setTimeout (callback : Callback) (delay : Nat) (s : State) : State :=
  { s with timers := s.timers ++ [⟨delay, callback⟩] }

/-- The loop body of `updatePinDisplay` over the dots from position `index` on:
`filled` is added when `index < currentPin.length` and removed otherwise. -/
def updateDots (len : Nat) : Nat → List PinDot → List PinDot
  | _, [] => []
  | index, dot :: rest =>
    (if index < len then { dot with filled := true } else { dot with filled := false })
      :: updateDots len (index + 1) rest

/-- The function `updatePinDisplay`. -/
def updatePinDisplay (s : State) : State :=
  { s with pinDots := updateDots s.currentPin.length 0 s.pinDots }

/-- The function `showError`. -/
def showError (message : String) (s : State) : State :=
  { s with errorText := message, errorDisplay := "block" }

/-- The function `clearError`. -/
def clearError (s : State) : State :=
  { s with errorText := "", errorDisplay := "none" }

/-- The function `shakeAnimation`. -/
def shakeAnimation (s : State) : State :=
  setTimeout .clearShake 500 { s with animation := "shake 0.5s" }

/-- The function `clearPin`. -/
def clearPin (s : State) : State :=
  clearError (updatePinDisplay { s with currentPin := [] })

/-- The function `deleteLastDigit`; `currentPin.slice(0, -1)` drops the last code unit. -/
def deleteLastDigit (s : State) : State :=
  if s.currentPin.length > 0 then
    clearError (updatePinDisplay { s with currentPin := s.currentPin.dropLast })
  else
    s

/-- The function `addDigit`. -/
def addDigit (digit : Option JSString) (s : State) : State :=
  if s.currentPin.length < 6 then
    let s := updatePinDisplay { s with currentPin := s.currentPin ++ toJSString digit }
    if s.currentPin.length = 6 then setTimeout .verifyPin 300 s else s
  else
    s

/-- The function `animateBalance`, as far as the gate is concerned: it starts an
interval of `duration / steps` = 25 ms whose callback counts `step` up from 0.
The text it writes into `.balance-amount` is not part of the state. -/
def animateBalance (s : State) : State :=
  { s with timers := s.timers ++ [⟨25, .balanceStep 0⟩] }

/-- The function `showDashboard`. -/
def showDashboard (s : State) : State :=
  let s := { s with pinScreenHidden := true }
  let s := { s with dashboardHidden := false }
  let s := { s with currentPin := [] }
  let s := updatePinDisplay s
  let s := clearError s
  animateBalance s

/-- The function `verifyPin`. -/
def verifyPin (s : State) : State :=
  if s.currentPin = CORRECT_PIN then
    let s := clearError s
    let s := { s with authenticated := some "true" }
    let s := { s with pinDots := s.pinDots.map fun dot =>
      { dot with background := "#38a169", borderColor := "#38a169" } }
    setTimeout .showDashboard 500 s
  else
    let s := showError "Incorrect PIN. Please try again." s
    let s := shakeAnimation s
    clearPin s

/-- The function `logout`. -/
def logout (s : State) : State :=
  let s := { s with authenticated := none }
  let s := { s with dashboardHidden := true }
  let s := { s with pinScreenHidden := false }
  let s := { s with currentPin := [] }
  updatePinDisplay s

/-- The function `handleKeyPress`, on the `data-key` attribute of the clicked
button (`none` when the attribute is missing). -/
def handleKeyPress (key : Option JSString) (s : State) : State :=
  if key = some (js "delete") then
    deleteLastDigit s
  else if key = some (js "clear") then
    clearPin s
  else if s.currentPin.length < 6 then
    addDigit key s
  else
    s

/-- The function `handleKeyboard`, on the property `event.key` of the event. -/
def handleKeyboard (key : JSString) (s : State) : State :=
  if !s.pinScreenHidden then
    if jsGe key (js "0") && jsLe key (js "9") && decide (s.currentPin.length < 6) then
      addDigit (some key) s
    else if key = js "Backspace" then
      deleteLastDigit s
    else if key = js "Escape" then
      clearPin s
    else if key = js "Enter" ∧ s.currentPin.length = 6 then
      verifyPin s
    else
      s
  else
    s

/-- Whether `handleKeyboard` calls `event.preventDefault()` on the event. -/
def handleKeyboardPreventsDefault (key : JSString) (s : State) : Bool :=
  !s.pinScreenHidden
    && !(jsGe key (js "0") && jsLe key (js "9") && decide (s.currentPin.length < 6))
    && decide (key = js "Backspace")

/-- The start-up check of the `DOMContentLoaded` listener. -/
def domContentLoaded (s : State) : State :=
  if s.authenticated = some "true" then showDashboard s else s

/-- The pending timer at position `i` fires: it leaves the pending list and its
callback runs.  An interval whose callback has not yet called `clearInterval`
(`step >= steps`, with `steps` = 60) stays pending, with its counter advanced. -/
def fireTimer (i : Nat) (s : State) : State :=
  match s.timers.get? i with
  | none => s
  | some t =>
    let s := { s with timers := s.timers.eraseIdx i }
    match t.callback with
    | .verifyPin => verifyPin s
    | .showDashboard => showDashboard s
    | .clearShake => { s with animation := "" }
    | .balanceStep step =>
      if step + 1 ≥ 60 then s
      else { s with timers := s.timers ++ [⟨t.delay, .balanceStep (step + 1)⟩] }

/-! ## Events -/

/-- What the page can deliver to the script after start-up. -/
inductive Event where
  /-- A click on a `.key-btn` button with this `data-key` attribute. -/
  | click (dataKey : Option JSString)
  /-- A `keydown` event on the document with this `key`. -/
  | keydown (key : JSString)
  /-- A click on the logout button. -/
  | logoutClick
  /-- The pending timer at this position fires. -/
  | timer (i : Nat)
  deriving DecidableEq

/-- The effect of one event. -/
def step (s : State) : Event → State
  | .click dataKey => handleKeyPress dataKey s
  | .keydown key => handleKeyboard key s
  | .logoutClick => logout s
  | .timer i => fireTimer i s

/-- The effect of a sequence of events, first to last. -/
def run (s : State) (events : List Event) : State :=
  events.foldl step s

/-- The page as first loaded with six indicator slots: PIN screen shown,
dashboard hidden, nothing typed, no error, nothing in session storage. -/
def freshPage : State :=
  { currentPin := []
    pinScreenHidden := false
    dashboardHidden := true
    errorText := ""
    errorDisplay := "none"
    pinDots := List.replicate 6 ⟨false, "", ""⟩
    animation := ""
    authenticated := none
    timers := [] }

end Appt

namespace Appt

/-- The events of entering the code units of `digits` one key at a time, on the
physical keyboard (`keyboard = true`) or on the on-screen keypad. -/
def typeDigits (keyboard : Bool) (digits : JSString) : List Event :=
  digits.map fun d => if keyboard then Event.keydown [d] else Event.click (some [d])

/-- The indicator display mirrors the buffer: each of the six slots exists and
is filled exactly when its index is below the buffer length. -/
def Mirrors (s : State) : Prop :=
  ∀ i, i < 6 → (s.pinDots.map PinDot.filled).get? i = some (decide (i < s.currentPin.length))

/-! ## Lemmas on the display -/

/-- After the loop of `updatePinDisplay` from position `k`, the dot at position
`i` is filled exactly when `i` is below the buffer length. -/
theorem updateDots_filled (len : Nat) (dots : List PinDot) (k : Nat) :
    (updateDots len k dots).map PinDot.filled
      = (List.range' k dots.length).map fun i => decide (i < len) := by
  induction dots generalizing k with
  | nil => rfl
  | cons dot rest ih =>
    simp only [updateDots, List.map_cons, List.length_cons, List.range', ih]
    by_cases h : k < len <;> simp [h]

/-- The loop of `updatePinDisplay` keeps the number of dots. -/
theorem updateDots_length (len : Nat) (dots : List PinDot) (k : Nat) :
    (updateDots len k dots).length = dots.length := by
  induction dots generalizing k with
  | nil => rfl
  | cons dot rest ih => simp [updateDots, ih]

/-- A display that mirrors the buffer has at least six dots. -/
theorem mirrors_six_le (s : State) (h : Mirrors s) : 6 ≤ s.pinDots.length := by
  have h5 := h 5 (by decide)
  by_contra hlt
  have : (s.pinDots.map PinDot.filled).get? 5 = none := by
    rw [List.get?_eq_none]; simp; omega
  rw [this] at h5
  cases h5

/-- A state whose dots are those of `updatePinDisplay` run for its own buffer
mirrors that buffer. -/
theorem mirrors_of_updateDots (s : State) (pin : JSString) (hlen : 6 ≤ s.pinDots.length)
    (t : State) (hpin : t.currentPin = pin)
    (hdots : t.pinDots = updateDots pin.length 0 s.pinDots) : Mirrors t := by
  intro i hi
  rw [hdots, updateDots_filled, hpin]
  have hi2 : i < s.pinDots.length := by omega
  simp [List.get?_eq_getElem?, List.getElem?_map, List.getElem?_range', hi2]

/-! ## The verifier -/

/-- C1: on a buffer of six code units `verifyPin` takes its success branch (the
session flag is stored as `"true"` and the switch to the dashboard is scheduled)
exactly when the buffer equals `CORRECT_PIN`; on any other such buffer it takes
the failure branch: the stored flag is left as it was, only the end of the shake
effect is scheduled, and the buffer is empty on return. -/
theorem verifyPin_success_iff_secret (s : State) (_hlen : s.currentPin.length = 6) :
    (((verifyPin s).authenticated = some "true" ∧
        (verifyPin s).timers = s.timers ++ [⟨500, Callback.showDashboard⟩])
      ↔ s.currentPin = CORRECT_PIN) ∧
    (s.currentPin ≠ CORRECT_PIN →
      (verifyPin s).authenticated = s.authenticated ∧
      (verifyPin s).timers = s.timers ++ [⟨500, Callback.clearShake⟩] ∧
      (verifyPin s).animation = "shake 0.5s" ∧
      (verifyPin s).currentPin.length = 0) := by
  by_cases h : s.currentPin = CORRECT_PIN
  · simp [verifyPin, h, setTimeout, clearError]
  · simp [verifyPin, h, setTimeout, clearError, clearPin, shakeAnimation, showError,
      updatePinDisplay]

/-- The secret itself and the wrong code `111111`, both six code units long, at
the instance of C1. -/
theorem verifyPin_success_iff_secret_witness :
    ((verifyPin { freshPage with currentPin := js "534271" }).authenticated = some "true" ∧
      (verifyPin { freshPage with currentPin := js "111111" }).authenticated = none) ∧
    (verifyPin { freshPage with currentPin := js "111111" }).currentPin.length = 0 :=
  ⟨⟨((verifyPin_success_iff_secret { freshPage with currentPin := js "534271" }
        (by decide)).1.2 (by decide)).1,
    ((verifyPin_success_iff_secret { freshPage with currentPin := js "111111" }
        (by decide)).2 (by decide)).1⟩,
   ((verifyPin_success_iff_secret { freshPage with currentPin := js "111111" }
        (by decide)).2 (by decide)).2.2.2⟩

/-- C3 at the wrong code `111111`: when `verifyPin` returns the buffer is empty,
and the error text is the empty string and its element is not displayed, since
`clearPin` ends with `clearError` and runs after `showError`; the message the
failure branch passed to `showError` is not what is shown. -/
theorem verifyPin_wrong_code_error_cleared :
    (verifyPin { freshPage with currentPin := js "111111" }).currentPin.length = 0 ∧
    (verifyPin { freshPage with currentPin := js "111111" }).errorText = "" ∧
    (verifyPin { freshPage with currentPin := js "111111" }).errorDisplay = "none" ∧
    (verifyPin { freshPage with currentPin := js "111111" }).errorText
      ≠ "Incorrect PIN. Please try again." ∧
    (shakeAnimation (showError "Incorrect PIN. Please try again."
      { freshPage with currentPin := js "111111" })).errorText
      = "Incorrect PIN. Please try again." := by
  decide

/-! ## Logout -/

/-- C4: from every state in which Dashboard is the visible view, whatever the
buffer and the stored flag, `logout` yields a state in which the PIN screen is
visible and the dashboard hidden, the session-storage entry is absent and the
buffer has length 0. -/
theorem logout_from_dashboard (s : State) (_h : DashboardVisible s) :
    PinScreenVisible (logout s) ∧ (logout s).authenticated = none ∧
      (logout s).currentPin.length = 0 := by
  simp [logout, PinScreenVisible, updatePinDisplay]

/-- The dashboard the start-up check shows when the flag is already stored, at
the instance of C4. -/
theorem logout_from_dashboard_witness :
    DashboardVisible (domContentLoaded { freshPage with authenticated := some "true" }) ∧
    PinScreenVisible
      (logout (domContentLoaded { freshPage with authenticated := some "true" })) ∧
    (logout (domContentLoaded { freshPage with authenticated := some "true" })).authenticated
      = none ∧
    (logout (domContentLoaded { freshPage with authenticated := some "true" })).currentPin.length
      = 0 :=
  ⟨by decide, logout_from_dashboard _ (by decide)⟩

/-! ## The digit buffer -/

/-- C5: for a buffer of at most six code units and a single digit character
`d` (code units 48 to 57): below six, `addDigit` makes the buffer the old one
followed by `d`, one longer and still at most six; at six, `addDigit` returns
the state unchanged, so nothing is appended and no verification is scheduled.
A keypad press labelled `d` does what `addDigit` does. -/
theorem addDigit_appends_or_ignores (s : State) (d : Nat)
    (hlen : s.currentPin.length ≤ 6) (_hd : 48 ≤ d ∧ d ≤ 57) :
    (s.currentPin.length < 6 →
      (addDigit (some [d]) s).currentPin = s.currentPin ++ [d] ∧
      (addDigit (some [d]) s).currentPin.length = s.currentPin.length + 1 ∧
      (addDigit (some [d]) s).currentPin.length ≤ 6) ∧
    (s.currentPin.length = 6 → addDigit (some [d]) s = s) ∧
    handleKeyPress (some [d]) s = addDigit (some [d]) s := by
  refine ⟨fun h => ?_, fun h => ?_, ?_⟩
  · have hcur : (addDigit (some [d]) s).currentPin = s.currentPin ++ [d] := by
      unfold addDigit
      simp only [h, if_true, toJSString]
      split <;> rfl
    rw [hcur]
    simp
    omega
  · simp [addDigit, h]
  · have h1 : (some [d] : Option JSString) ≠ some (js "delete") := by
      intro hc
      have hl : (js "delete").length = 1 := by rw [← Option.some.inj hc]; rfl
      exact absurd hl (by decide)
    have h2 : (some [d] : Option JSString) ≠ some (js "clear") := by
      intro hc
      have hl : (js "clear").length = 1 := by rw [← Option.some.inj hc]; rfl
      exact absurd hl (by decide)
    unfold handleKeyPress
    rw [if_neg h1, if_neg h2]
    by_cases h : s.currentPin.length < 6
    · rw [if_pos h]
    · rw [if_neg h]
      simp [addDigit, h]

/-- The digit `7` (code unit 55) added to the buffer `12` and to the full buffer
`534271`, at the instance of C5. -/
theorem addDigit_appends_or_ignores_witness :
    (addDigit (some [55]) { freshPage with currentPin := js "12" }).currentPin = js "127" ∧
    addDigit (some [55]) { freshPage with currentPin := js "534271" }
      = { freshPage with currentPin := js "534271" } :=
  ⟨((addDigit_appends_or_ignores { freshPage with currentPin := js "12" } 55
      (by decide) (by decide)).1 (by decide)).1,
   (addDigit_appends_or_ignores { freshPage with currentPin := js "534271" } 55
      (by decide) (by decide)).2.1 (by decide)⟩

/-- C6: `deleteLastDigit` returns the state unchanged on the empty buffer (so
neither the buffer nor the error display changes); on a non-empty buffer the new
buffer is the old one without its last code unit: the old buffer is the new one
followed by one code unit, and the length falls by exactly one.  Two `Backspace`
key-downs on the buffer `12` with the PIN screen shown leave the empty buffer. -/
theorem deleteLastDigit_drops_last (s : State) :
    (s.currentPin = [] → deleteLastDigit s = s) ∧
    (s.currentPin ≠ [] →
      (∃ c, s.currentPin = (deleteLastDigit s).currentPin ++ [c]) ∧
      (deleteLastDigit s).currentPin.length + 1 = s.currentPin.length) ∧
    (s.pinScreenHidden = false → s.currentPin = js "12" →
      (handleKeyboard (js "Backspace") (handleKeyboard (js "Backspace") s)).currentPin = []) := by
  refine ⟨fun h => ?_, fun h => ?_, fun hv hb => ?_⟩
  · simp [deleteLastDigit, h]
  · have hpos : s.currentPin.length > 0 := List.length_pos.mpr h
    have hcur : (deleteLastDigit s).currentPin = s.currentPin.dropLast := by
      simp [deleteLastDigit, hpos, clearError, updatePinDisplay]
    rw [hcur]
    refine ⟨⟨s.currentPin.getLast h, (List.dropLast_append_getLast h).symm⟩, ?_⟩
    rw [List.length_dropLast]
    omega
  · obtain ⟨pin, psh, dh, et, ed, dots, an, au, ti⟩ := s
    simp only at hv hb
    subst hv hb
    rfl

/-- The buffer `12` on the freshly loaded page, at the instance of C6. -/
theorem deleteLastDigit_drops_last_witness :
    (deleteLastDigit { freshPage with currentPin := js "12" }).currentPin.length + 1 = 2 ∧
    (handleKeyboard (js "Backspace") (handleKeyboard (js "Backspace")
      { freshPage with currentPin := js "12" })).currentPin = [] :=
  ⟨((deleteLastDigit_drops_last { freshPage with currentPin := js "12" }).2.1
      (by decide)).2,
   (deleteLastDigit_drops_last { freshPage with currentPin := js "12" }).2.2
      (by decide) (by decide)⟩

/-! ## Entering the secret -/

/-- The code units of the secret. -/
theorem CORRECT_PIN_units : CORRECT_PIN = [53, 51, 52, 50, 55, 49] := by decide

/-- The code unit of the character `0`. -/
theorem js_digit0 : js "0" = [48] := by decide

/-- The code unit of the character `9`. -/
theorem js_digit9 : js "9" = [57] := by decide

/-- The code units of the keypad label `delete`. -/
theorem js_delete : js "delete" = [100, 101, 108, 101, 116, 101] := by decide

/-- The code units of the keypad label `clear`. -/
theorem js_clear : js "clear" = [99, 108, 101, 97, 114] := by decide

/-- C2: from the PIN screen with an empty buffer, no stored flag and no pending
timer, the six digit keys 5, 3, 4, 2, 7, 1 in order (on the keyboard or on the
keypad) leave exactly one pending timer, the verification; when it fires the
stored flag is `"true"` and exactly one timer is pending, the success delay;
when that one fires Dashboard is the visible view and the buffer is empty. -/
theorem secret_entry_opens_dashboard (s : State) (keyboard : Bool)
    (hview : PinScreenVisible s) (hbuf : s.currentPin = [])
    (hflag : s.authenticated = none) (htimers : s.timers = []) :
    (run s (typeDigits keyboard CORRECT_PIN)).timers = [⟨300, Callback.verifyPin⟩] ∧
    (run s (typeDigits keyboard CORRECT_PIN)).authenticated = none ∧
    (fireTimer 0 (run s (typeDigits keyboard CORRECT_PIN))).authenticated = some "true" ∧
    (fireTimer 0 (run s (typeDigits keyboard CORRECT_PIN))).timers
      = [⟨500, Callback.showDashboard⟩] ∧
    PinScreenVisible (fireTimer 0 (run s (typeDigits keyboard CORRECT_PIN))) ∧
    DashboardVisible (fireTimer 0 (fireTimer 0 (run s (typeDigits keyboard CORRECT_PIN)))) ∧
    (fireTimer 0 (fireTimer 0 (run s (typeDigits keyboard CORRECT_PIN)))).currentPin = [] := by
  obtain ⟨pin, psh, dh, et, ed, dots, an, au, ti⟩ := s
  obtain ⟨hp, hdash⟩ := hview
  simp only at hp hdash hbuf hflag htimers
  subst hp hdash hbuf hflag htimers
  cases keyboard <;>
    simp [run, typeDigits, step, handleKeyboard, handleKeyPress, addDigit, updatePinDisplay,
      setTimeout, toJSString, CORRECT_PIN_units, js_digit0, js_digit9, js_delete, js_clear,
      jsGe, jsLe, jsLt, fireTimer, verifyPin, clearError, showDashboard, animateBalance,
      PinScreenVisible, DashboardVisible]

/-- The freshly loaded page and the physical keyboard, at the instance of C2. -/
theorem secret_entry_opens_dashboard_witness :
    (fireTimer 0 (run freshPage (typeDigits true CORRECT_PIN))).authenticated = some "true" ∧
    DashboardVisible (fireTimer 0 (fireTimer 0 (run freshPage (typeDigits true CORRECT_PIN)))) :=
  ⟨(secret_entry_opens_dashboard freshPage true (by decide) rfl rfl rfl).2.2.1,
   (secret_entry_opens_dashboard freshPage true (by decide) rfl rfl rfl).2.2.2.2.2.1⟩

/-! ## Input while the dashboard is shown -/

/-- C7 as stated fails for the keypad: on the dashboard reached from the freshly
loaded page, where Dashboard is the visible view, a keypad press labelled `5`
changes the buffer, and the six presses 5, 3, 4, 2, 7, 1 leave a verification
pending. -/
theorem keypad_press_on_dashboard_changes_buffer :
    DashboardVisible (showDashboard freshPage) ∧
    (handleKeyPress (some (js "5")) (showDashboard freshPage)).currentPin
      ≠ (showDashboard freshPage).currentPin ∧
    (⟨300, Callback.verifyPin⟩ : Timer)
      ∈ (run (showDashboard freshPage) (typeDigits false CORRECT_PIN)).timers := by
  decide

/-- C7, amended: in every state in which Dashboard is the visible view, a
key-down event with any key name leaves the whole state as it is (so the buffer,
the error text and the pending timers are unchanged and no verification runs),
and `preventDefault` is not called.  A keypad press is not checked against the
view: in such a state the label `delete` runs `deleteLastDigit` (a non-empty
buffer loses its last code unit), the label `clear` runs `clearPin` (the buffer
and the error text become empty), any other label runs `addDigit` while the
buffer is shorter than six (the label is appended) and does nothing from six
on; and the outcome of a press is the same whichever view is visible, the two
visibility flags being carried through untouched. -/
theorem handleKeyboard_ignored_on_dashboard (s : State) (key : JSString)
    (label : Option JSString) (h : DashboardVisible s) :
    (handleKeyboard key s = s ∧ handleKeyboardPreventsDefault key s = false) ∧
    (handleKeyPress (some (js "delete")) s = deleteLastDigit s ∧
      (s.currentPin ≠ [] →
        (handleKeyPress (some (js "delete")) s).currentPin = s.currentPin.dropLast)) ∧
    (handleKeyPress (some (js "clear")) s = clearPin s ∧
      (handleKeyPress (some (js "clear")) s).currentPin = [] ∧
      (handleKeyPress (some (js "clear")) s).errorText = "") ∧
    (label ≠ some (js "delete") → label ≠ some (js "clear") →
      (s.currentPin.length < 6 →
        handleKeyPress label s = addDigit label s ∧
        (handleKeyPress label s).currentPin = s.currentPin ++ toJSString label) ∧
      (6 ≤ s.currentPin.length → handleKeyPress label s = s)) ∧
    (∀ pinHidden dashHidden : Bool,
      handleKeyPress label { s with pinScreenHidden := pinHidden, dashboardHidden := dashHidden }
        = { handleKeyPress label s with
            pinScreenHidden := pinHidden, dashboardHidden := dashHidden }) ∧
    DashboardVisible (handleKeyPress label s) := by
  refine ⟨?_, ⟨?_, fun hne => ?_⟩, ⟨?_, ?_, ?_⟩, fun h1 h2 => ⟨fun hlt => ⟨?_, ?_⟩, fun hge => ?_⟩,
    fun pinHidden dashHidden => ?_, ?_⟩
  · simp [handleKeyboard, handleKeyboardPreventsDefault, h.1]
  · simp [handleKeyPress]
  · have hpos : s.currentPin.length > 0 := List.length_pos.mpr hne
    simp [handleKeyPress, deleteLastDigit, hpos, clearError, updatePinDisplay]
  · have hne : (some (js "clear") : Option JSString) ≠ some (js "delete") := by decide
    simp [handleKeyPress, hne]
  · have hne : (some (js "clear") : Option JSString) ≠ some (js "delete") := by decide
    simp [handleKeyPress, hne, clearPin, clearError, updatePinDisplay]
  · have hne : (some (js "clear") : Option JSString) ≠ some (js "delete") := by decide
    simp [handleKeyPress, hne, clearPin, clearError, updatePinDisplay]
  · simp [handleKeyPress, h1, h2, hlt]
  · have hcur : (addDigit label s).currentPin = s.currentPin ++ toJSString label := by
      unfold addDigit
      simp only [hlt, if_true]
      split <;> rfl
    simp only [handleKeyPress, if_neg h1, if_neg h2, if_pos hlt, hcur]
  · have hnlt : ¬ s.currentPin.length < 6 := by omega
    simp [handleKeyPress, h1, h2, hnlt]
  · unfold handleKeyPress deleteLastDigit clearPin addDigit
    simp only [updatePinDisplay, clearError, setTimeout]
    split_ifs <;> rfl
  · obtain ⟨hp, hd⟩ := h
    unfold DashboardVisible handleKeyPress deleteLastDigit clearPin addDigit
    simp only [updatePinDisplay, clearError, setTimeout]
    split_ifs <;> exact ⟨hp, hd⟩

/-- The dashboard the start-up check shows with the buffer `12` still held, the
key `5` and the keypad label `7`, at the instance of the amended C7. -/
theorem handleKeyboard_ignored_on_dashboard_witness :
    DashboardVisible { showDashboard freshPage with currentPin := js "12" } ∧
    handleKeyboard (js "5") { showDashboard freshPage with currentPin := js "12" }
      = { showDashboard freshPage with currentPin := js "12" } ∧
    (handleKeyPress (some (js "delete"))
      { showDashboard freshPage with currentPin := js "12" }).currentPin = js "1" ∧
    (handleKeyPress (some (js "7"))
      { showDashboard freshPage with currentPin := js "12" }).currentPin = js "127" :=
  ⟨by decide,
   (handleKeyboard_ignored_on_dashboard { showDashboard freshPage with currentPin := js "12" }
      (js "5") (some (js "7")) (by decide)).1.1,
   (handleKeyboard_ignored_on_dashboard { showDashboard freshPage with currentPin := js "12" }
      (js "5") (some (js "7")) (by decide)).2.1.2 (by decide),
   ((handleKeyboard_ignored_on_dashboard { showDashboard freshPage with currentPin := js "12" }
      (js "5") (some (js "7")) (by decide)).2.2.2.1 (by decide) (by decide)).1 (by decide) |>.2⟩

/-! ## Verification on a buffer that is not full -/

/-- C8 on a run of the page: the wrong code `111111` is typed and `Enter` is
pressed before the pending auto-submit fires, which leaves the empty buffer.
Running `verifyPin` on that state changes the pending timers.  When the digits
`1`, `2` are typed next, the buffer is `12` and the auto-submit is still
pending; when it fires, `verifyPin` runs on the two-digit buffer and takes its
failure branch: the buffer is emptied, the shake effect is set and one more
timer is pending. -/
theorem verifyPin_runs_on_short_buffer :
    (run freshPage (typeDigits true (js "111111") ++ [Event.keydown (js "Enter")])).currentPin
      = [] ∧
    (run freshPage (typeDigits true (js "111111") ++ [Event.keydown (js "Enter")])).timers
      = [⟨300, Callback.verifyPin⟩, ⟨500, Callback.clearShake⟩] ∧
    (verifyPin (run freshPage
        (typeDigits true (js "111111") ++ [Event.keydown (js "Enter")]))).timers
      ≠ (run freshPage (typeDigits true (js "111111") ++ [Event.keydown (js "Enter")])).timers ∧
    (run freshPage (typeDigits true (js "111111") ++ [Event.keydown (js "Enter")]
        ++ typeDigits true (js "12"))).currentPin = js "12" ∧
    (run freshPage (typeDigits true (js "111111") ++ [Event.keydown (js "Enter")]
        ++ typeDigits true (js "12"))).timers
      = [⟨300, Callback.verifyPin⟩, ⟨500, Callback.clearShake⟩] ∧
    (run freshPage (typeDigits true (js "111111") ++ [Event.keydown (js "Enter")]
        ++ typeDigits true (js "12") ++ [Event.timer 0])).currentPin = [] ∧
    (run freshPage (typeDigits true (js "111111") ++ [Event.keydown (js "Enter")]
        ++ typeDigits true (js "12") ++ [Event.timer 0])).animation = "shake 0.5s" ∧
    (run freshPage (typeDigits true (js "111111") ++ [Event.keydown (js "Enter")]
        ++ typeDigits true (js "12") ++ [Event.timer 0])).timers
      = [⟨500, Callback.clearShake⟩, ⟨500, Callback.clearShake⟩] := by
  decide

/-! ## The dashboard and the session flag -/

/-- C9 on a run of the page: the secret is typed, `Enter` is pressed before the
pending auto-submit fires, the auto-submit fires (a second success, the buffer
still holding the secret), the first success delay fires and shows the
dashboard, and the user logs out.  The PIN screen is then visible, the flag is
absent and the second success delay is still pending; when it fires, Dashboard
is the visible view while the stored flag is absent. -/
theorem dashboard_shown_without_flag :
    PinScreenVisible (run freshPage (typeDigits true CORRECT_PIN
      ++ [Event.keydown (js "Enter"), Event.timer 0, Event.timer 0, Event.logoutClick])) ∧
    (run freshPage (typeDigits true CORRECT_PIN
      ++ [Event.keydown (js "Enter"), Event.timer 0, Event.timer 0, Event.logoutClick])).authenticated
      = none ∧
    (run freshPage (typeDigits true CORRECT_PIN
      ++ [Event.keydown (js "Enter"), Event.timer 0, Event.timer 0, Event.logoutClick])).timers
      = [⟨500, Callback.showDashboard⟩, ⟨25, Callback.balanceStep 0⟩] ∧
    DashboardVisible (run freshPage (typeDigits true CORRECT_PIN
      ++ [Event.keydown (js "Enter"), Event.timer 0, Event.timer 0, Event.logoutClick,
          Event.timer 0])) ∧
    (run freshPage (typeDigits true CORRECT_PIN
      ++ [Event.keydown (js "Enter"), Event.timer 0, Event.timer 0, Event.logoutClick,
          Event.timer 0])).authenticated = none := by
  decide

/-! ## The indicator display -/

/-- C10: if the six indicator slots mirror the buffer before the call (slot `i`
filled exactly when `i` is below the buffer length), they do so after each of
`addDigit` (whatever its argument), `deleteLastDigit`, `clearPin`, `verifyPin`,
`showDashboard` and `logout`, for every buffer of at most six code units. -/
theorem display_mirrors_buffer (s : State) (digit : Option JSString)
    (_hlen : s.currentPin.length ≤ 6) (h : Mirrors s) :
    Mirrors (addDigit digit s) ∧ Mirrors (deleteLastDigit s) ∧ Mirrors (clearPin s) ∧
    Mirrors (verifyPin s) ∧ Mirrors (showDashboard s) ∧ Mirrors (logout s) := by
  have h6 := mirrors_six_le s h
  have hclear : Mirrors (clearPin s) := mirrors_of_updateDots s [] h6 _ rfl rfl
  refine ⟨?_, ?_, hclear, ?_, ?_, ?_⟩
  · unfold addDigit
    split
    · simp only []
      split
      · exact mirrors_of_updateDots s (s.currentPin ++ toJSString digit) h6 _ rfl rfl
      · exact mirrors_of_updateDots s (s.currentPin ++ toJSString digit) h6 _ rfl rfl
    · exact h
  · unfold deleteLastDigit
    split
    · exact mirrors_of_updateDots s s.currentPin.dropLast h6 _ rfl rfl
    · exact h
  · unfold verifyPin
    split
    · intro i hi
      have := h i hi
      simpa [setTimeout, clearError, Function.comp_def] using this
    · exact mirrors_of_updateDots s [] h6 _ rfl rfl
  · exact mirrors_of_updateDots s [] h6 _ rfl rfl
  · exact mirrors_of_updateDots s [] h6 _ rfl rfl

/-- The buffer `12` with the first two of six slots filled and the argument `7`,
at the instance of C10. -/
theorem display_mirrors_buffer_witness :
    Mirrors (updatePinDisplay { freshPage with currentPin := js "12" }) ∧
    Mirrors (addDigit (some (js "7")) (updatePinDisplay { freshPage with currentPin := js "12" })) ∧
    Mirrors (verifyPin (updatePinDisplay { freshPage with currentPin := js "12" })) :=
  have hm : Mirrors (updatePinDisplay { freshPage with currentPin := js "12" }) :=
    mirrors_of_updateDots freshPage (js "12") (by decide) _ rfl rfl
  ⟨hm,
   (display_mirrors_buffer (updatePinDisplay { freshPage with currentPin := js "12" })
      (some (js "7")) (by decide) hm).1,
   (display_mirrors_buffer (updatePinDisplay { freshPage with currentPin := js "12" })
      (some (js "7")) (by decide) hm).2.2.2.1⟩

end Appt
